import Mathlib

/-!
Verification of the intent-routing core of the travel-agent backend
(`travel_ai_agent.py`).  Strings are modelled as lists of characters;
the Python operations `str.lower`, `str.strip`, `str.startswith`,
`str.replace(old, "")` and `str.title` are embedded as executable
functions below, and the agent's database and Gemini collaborators are
modelled as explicit oracles so that every control path of
`handle_query` is a total Lean function.
-/

abbrev Str := List Char

/-- Whitespace test used by the embedding of Python `str.strip`. -/
def isWsChar (c : Char) : Bool := c.isWhitespace

/-- Embedding of Python `str.lower` (character-wise lowercasing). -/
def pyLower (s : Str) : Str := s.map Char.toLower

/-- Drop leading whitespace (left half of Python `str.strip`). -/
def lstripL (s : Str) : Str := s.dropWhile isWsChar

/-- Drop trailing whitespace (right half of Python `str.strip`). -/
def rstripL (s : Str) : Str := (s.reverse.dropWhile isWsChar).reverse

/-- Embedding of Python `str.strip()`: drop leading and trailing whitespace. -/
def pyStrip (s : Str) : Str := rstripL (lstripL s)

/-- Embedding of Python `str.startswith(pat)`. -/
def listStartsWith : Str → Str → Bool
  | [], _ => true
  | _ :: _, [] => false
  | a :: p, b :: s => a = b && listStartsWith p s

/-- Fuelled worker for `pyReplace`: scans left to right, removing each
non-overlapping occurrence of the pattern `p :: ps`.  The fuel is an upper
bound on the length of the remaining input, so `pyReplace` always supplies
enough of it. -/
def replaceAllFuel (p : Char) (ps : Str) : Nat → Str → Str
  | 0, s => s
  | _ + 1, [] => []
  | f + 1, c :: rest =>
    if listStartsWith (p :: ps) (c :: rest) then
      replaceAllFuel p ps f (rest.drop ps.length)
    else
      c :: replaceAllFuel p ps f rest

/-- Embedding of Python `s.replace(pat, "")`: every (left-to-right,
non-overlapping) occurrence of `pat` in `s` is deleted. -/
def pyReplace (pat : Str) (s : Str) : Str :=
  match pat with
  | [] => s
  | p :: ps => replaceAllFuel p ps s.length s

/-- Worker for `pyTitle`; the boolean records whether the previous
character was alphabetic. -/
def pyTitleAux : Bool → Str → Str
  | _, [] => []
  | prevAlpha, c :: rest =>
    (if c.isAlpha then (if prevAlpha then c.toLower else c.toUpper) else c)
      :: pyTitleAux c.isAlpha rest

/-- Embedding of Python `str.title()`: the first letter of every
alphabetic run is uppercased, the rest lowercased. -/
def pyTitle (s : Str) : Str := pyTitleAux false s

example : pyStrip (pyLower ("  HOTELS IN Zurich ".data)) = ("hotels in zurich".data) := by decide
example : pyReplace ("hotels in ".data) ("hotels in paris hotels in nice".data) = ("paris nice".data) := by decide
example : pyTitle ("atlantis".data) = ("Atlantis".data) := by decide

/-- A calendar date as delivered by the database driver (`datetime.date`). -/
structure PyDate where
  year : Nat
  month : Nat
  day : Nat
deriving DecidableEq

/-- Left-pad the decimal digits of `n` with zeros to width `w`. -/
def padZeros (w : Nat) (n : Nat) : Str :=
  List.replicate (w - (Nat.toDigits 10 n).length) '0' ++ Nat.toDigits 10 n

/-- Embedding of `d.strftime("%Y-%m-%d")`. -/
def strftimeYMD (d : PyDate) : Str :=
  padZeros 4 d.year ++ ('-' :: padZeros 2 d.month) ++ ('-' :: padZeros 2 d.day)

example : strftimeYMD ⟨2024, 5, 1⟩ = ("2024-05-01".data) := by decide

/-- A raw row of the `hotels` table as selected by
`_get_hotels_by_location_from_db` (dates still native). -/
structure HotelRow where
  name : Str
  location : Str
  price_tier : Str
  checkin_date : PyDate
  checkout_date : PyDate
  booked : Bool
deriving DecidableEq

/-- The dictionary built from a row inside
`_get_hotels_by_location_from_db` (dates serialized to `YYYY-MM-DD`). -/
structure HotelRecord where
  name : Str
  location : Str
  price_tier : Str
  checkin_date : Str
  checkout_date : Str
  booked : Bool
deriving DecidableEq

/-- Row-to-dictionary conversion performed in the query loop of
`_get_hotels_by_location_from_db`. -/
def rowToRecord (r : HotelRow) : HotelRecord :=
  { name := r.name, location := r.location, price_tier := r.price_tier,
    checkin_date := strftimeYMD r.checkin_date,
    checkout_date := strftimeYMD r.checkout_date,
    booked := r.booked }

/-- Observable events on a database connection, used to state the
per-call connection-lifecycle property. -/
inductive DBEvent where
  | openConn
  | execQuery
  | closeConn
deriving DecidableEq

/-- Oracle for the PostgreSQL collaborator: whether `get_db_connection`
succeeds, and the outcome of each of the two queries the agent issues
(`Except` models a raised `psycopg2.Error`). -/
structure Store where
  connectOk : Bool
  citiesResult : Except Unit (List Str)
  hotelsResult : Str → Except Unit (List HotelRow)

/-- Embedding of `TravelAIAgent._get_cities_from_db`, instrumented with
the trace of connection events.  `conn = get_db_connection()`; on success
the query runs inside `try`, the `except` branch swallows the error, and
`finally` closes the connection on both paths. -/
def getCitiesFromDb (store : Store) : List Str × List DBEvent :=
  if store.connectOk then
    match store.citiesResult with
    | .ok cities => (cities, [.openConn, .execQuery, .closeConn])
    | .error _ => ([], [.openConn, .execQuery, .closeConn])
  else
    ([], [])

/-- Embedding of `TravelAIAgent._get_hotels_by_location_from_db`,
instrumented with the trace of connection events; same
`try`/`except`/`finally` shape as `getCitiesFromDb`, with the row loop
converting each row to a dictionary. -/
def getHotelsByLocationFromDb (store : Store) (location : Str) :
    List HotelRecord × List DBEvent :=
  if store.connectOk then
    match store.hotelsResult location with
    | .ok rows => (rows.map rowToRecord, [.openConn, .execQuery, .closeConn])
    | .error _ => ([], [.openConn, .execQuery, .closeConn])
  else
    ([], [])

/-- One part of a Gemini response candidate's content. -/
structure GeminiPart where
  text : Str
deriving DecidableEq

/-- Content of a Gemini response candidate. -/
structure GeminiContent where
  parts : List GeminiPart
deriving DecidableEq

/-- A Gemini response candidate; `content` may be missing. -/
structure GeminiCandidate where
  content : Option GeminiContent
deriving DecidableEq

/-- A Gemini response as inspected by `_query_gemini`. -/
structure GeminiResponse where
  candidates : List GeminiCandidate
deriving DecidableEq

/-- Oracle for `self.model.generate_content`: for a given prompt it either
raises (`.error` with the exception text), returns a falsy response
(`.ok none`) or returns a response object. -/
abbrev GeminiGen := Str → Except Str (Option GeminiResponse)

/-- The fixed system instruction (`context`) of `_query_gemini`. -/
def geminiContext : Str :=
  "You are a travel agent. Only answer questions about country, state, cities, places in cities and what it is like to visit there or famous for, hotels/resorts/stays, travel planning, price details and travel related details of country. If a question is outside of this context, respond with: 'Hi, I'm an travel Agent and ask me question only about travel/country/state/city/stay/travel planning related details. Thank you!'".data

/-- `prompt_with_context = f"{context}\n\nUser query: {prompt}"`. -/
def fullPrompt (prompt : Str) : Str :=
  geminiContext ++ ("\n\nUser query: ".data) ++ prompt

/-- Message returned by `_query_gemini` when `self.model` is `None`. -/
def aiUnavailableMsg : Str :=
  "AI functionality is not available due to missing or invalid API key.".data

/-- Leading text of the message returned when `generate_content` raises. -/
def aiErrorMsgPre : Str := "Error communicating with AI: ".data

/-- Message returned when the response has no candidates, content or parts. -/
def aiInvalidMsg : Str := "Gemini AI did not return a valid response.".data

/-- Embedding of `TravelAIAgent._query_gemini`.  The second component
counts how many times `generate_content` was invoked. -/
def queryGemini (model : Option GeminiGen) (prompt : Str) : Str × Nat :=
  match model with
  | none => (aiUnavailableMsg, 0)
  | some gen =>
    match gen (fullPrompt prompt) with
    | .error e => (aiErrorMsgPre ++ e, 1)
    | .ok none => (aiInvalidMsg, 1)
    | .ok (some resp) =>
      match resp.candidates with
      | [] => (aiInvalidMsg, 1)
      | cand :: _ =>
        match cand.content with
        | none => (aiInvalidMsg, 1)
        | some content =>
          match content.parts with
          | [] => (aiInvalidMsg, 1)
          | part :: _ => (part.text, 1)

/-- The agent's collaborators: the database oracle and the optional
Gemini model (`self.model` is `None` when configuration failed). -/
structure Agent where
  store : Store
  model : Option GeminiGen

/-- Message returned on the `list cities` path when the city list is empty. -/
def cityListFailMsg : Str :=
  "Could not retrieve city list from database. Please ensure the database is running and accessible.".data

/-- One listing line of the hotel response, without the trailing newline:
`f"- {name} ({price_tier}) - Check-in: {checkin}, Check-out: {checkout} Status: {status}"`. -/
def formatHotelLine (hotel : HotelRecord) : Str :=
  ("- ".data) ++ hotel.name ++ (" (".data) ++ hotel.price_tier
    ++ (") - Check-in: ".data) ++ hotel.checkin_date
    ++ (", Check-out: ".data) ++ hotel.checkout_date
    ++ (" Status: ".data)
    ++ (if hotel.booked then ("Booked".data) else ("Available".data))

/-- The hotel-listing response: header line, one line per record each
followed by `"\n"`, and a final `strip()` as in `handle_query`. -/
def hotelsListing (header : Str) (location : Str) (hotels : List HotelRecord) : Str :=
  pyStrip (header ++ pyTitle location ++ (":\n".data)
    ++ (hotels.map (fun h => formatHotelLine h ++ ("\n".data))).flatten)

/-- The `"No hotels found in {location.title()} in our database, or an
error occurred."` message. -/
def noHotelsMsg (location : Str) : Str :=
  ("No hotels found in ".data) ++ pyTitle location
    ++ (" in our database, or an error occurred.".data)

/-- Embedding of `TravelAIAgent.handle_query`.  The second component
counts the Gemini invocations made while handling the query. -/
def handleQuery (a : Agent) (userQuery : Str) : Str × Nat :=
  let uql := pyStrip (pyLower userQuery)
  if uql = ("list cities".data) ∨ uql = ("show cities".data) then
    let cities := (getCitiesFromDb a.store).1
    if cities ≠ ([] : List Str) then
      (("Available cities: ".data) ++ List.intercalate (", ".data) cities ++ (".".data), 0)
    else
      (cityListFailMsg, 0)
  else if listStartsWith ("hotels in ".data) uql then
    let location := pyStrip (pyReplace ("hotels in ".data) uql)
    let hotels := (getHotelsByLocationFromDb a.store location).1
    if hotels ≠ ([] : List HotelRecord) then
      (hotelsListing ("Hotels in ".data) location hotels, 0)
    else
      (noHotelsMsg location, 0)
  else if listStartsWith ("find hotels in ".data) uql then
    let location := pyStrip (pyReplace ("find hotels in ".data) uql)
    let hotels := (getHotelsByLocationFromDb a.store location).1
    if hotels ≠ ([] : List HotelRecord) then
      (hotelsListing ("Hotels found in ".data) location hotels, 0)
    else
      (noHotelsMsg location, 0)
  else
    queryGemini a.model userQuery

/-- The closed set of intents the router distinguishes, one per branch of
`handle_query`; the two hotel branches are kept apart because their
response headers differ. -/
inductive Intent where
  | listCities
  | hotelsIn (location : Str)
  | findHotelsIn (location : Str)
  | unclassified (text : Str)
deriving DecidableEq

/-- Pure classification function: the branch conditions of `handle_query`
applied to the normalized text, with the extracted location (or the
original text for the fallback) as payload. -/
def classify (userQuery : Str) : Intent :=
  let uql := pyStrip (pyLower userQuery)
  if uql = ("list cities".data) ∨ uql = ("show cities".data) then
    .listCities
  else if listStartsWith ("hotels in ".data) uql then
    .hotelsIn (pyStrip (pyReplace ("hotels in ".data) uql))
  else if listStartsWith ("find hotels in ".data) uql then
    .findHotelsIn (pyStrip (pyReplace ("find hotels in ".data) uql))
  else
    .unclassified userQuery

/-- Response construction per intent, as performed by the corresponding
branch of `handle_query`. -/
def dispatch (a : Agent) : Intent → Str × Nat
  | .listCities =>
    let cities := (getCitiesFromDb a.store).1
    if cities ≠ ([] : List Str) then
      (("Available cities: ".data) ++ List.intercalate (", ".data) cities ++ (".".data), 0)
    else
      (cityListFailMsg, 0)
  | .hotelsIn location =>
    let hotels := (getHotelsByLocationFromDb a.store location).1
    if hotels ≠ ([] : List HotelRecord) then
      (hotelsListing ("Hotels in ".data) location hotels, 0)
    else
      (noHotelsMsg location, 0)
  | .findHotelsIn location =>
    let hotels := (getHotelsByLocationFromDb a.store location).1
    if hotels ≠ ([] : List HotelRecord) then
      (hotelsListing ("Hotels found in ".data) location hotels, 0)
    else
      (noHotelsMsg location, 0)
  | .unclassified text =>
    queryGemini a.model text

/-- The Lakeview example record of the specification. -/
def lakeviewRow : HotelRow :=
  ⟨("Lakeview".data), ("Zurich".data), ("mid".data), ⟨2024, 5, 1⟩, ⟨2024, 5, 3⟩, true⟩

/-- A store whose connection succeeds and whose queries all return empty results. -/
def storeEmptyC : Store := ⟨true, .ok [], fun _ => .ok []⟩

/-- A store whose connection attempt fails. -/
def storeFailC : Store := ⟨false, .error (), fun _ => .error ()⟩

/-- A store whose connection succeeds but whose queries all raise. -/
def storeErrC : Store := ⟨true, .error (), fun _ => .error ()⟩

/-- A store holding the three example cities. -/
def storeBGZ : Store :=
  ⟨true, .ok [("Bern".data), ("Geneva".data), ("Zurich".data)], fun _ => .ok []⟩

/-- A Gemini oracle that always answers with a fixed single-part response. -/
def genOkC : GeminiGen :=
  fun _ => .ok (some ⟨[⟨some ⟨[⟨("Visit Bern.".data)⟩]⟩⟩]⟩)

/-- A Gemini oracle that always raises with message `boom`. -/
def genErrC : GeminiGen := fun _ => .error ("boom".data)

/-- A Gemini oracle that always returns a falsy response object. -/
def genNoneC : GeminiGen := fun _ => .ok none

/-! ### Helper lemmas about the embedded string operations -/

lemma getLast?_cons_ne_nil {a : Char} {l : List Char} (h : l ≠ []) :
    (a :: l).getLast? = l.getLast? := by
  cases l with
  | nil => exact absurd rfl h
  | cons b t => exact List.getLast?_cons_cons

lemma lsw_eq_append : ∀ (p s : Str), listStartsWith p s = true → s = p ++ s.drop p.length := by
  intro p
  induction p with
  | nil => intro s _; simp
  | cons a p ih =>
    intro s h
    cases s with
    | nil => simp [listStartsWith] at h
    | cons b t =>
      simp only [listStartsWith, Bool.and_eq_true, decide_eq_true_eq] at h
      obtain ⟨rfl, h2⟩ := h
      simpa [List.drop_succ_cons] using congrArg (a :: ·) (ih t h2)

lemma lsw_cons_head {a : Char} {p s : Str} (h : listStartsWith (a :: p) s = true) :
    ∃ t, s = a :: t :=
  ⟨p ++ s.drop (p.length + 1), by simpa using lsw_eq_append (a :: p) s h⟩

lemma hotels_not_list {s : Str} (h : listStartsWith ("hotels in ".data) s = true) :
    ¬(s = ("list cities".data) ∨ s = ("show cities".data)) := by
  rintro (rfl | rfl) <;> exact absurd h (by decide)

lemma find_not_list {s : Str} (h : listStartsWith ("find hotels in ".data) s = true) :
    ¬(s = ("list cities".data) ∨ s = ("show cities".data)) := by
  rintro (rfl | rfl) <;> exact absurd h (by decide)

lemma find_not_hotels {s : Str} (h : listStartsWith ("find hotels in ".data) s = true) :
    ¬(listStartsWith ("hotels in ".data) s = true) := by
  have h' : listStartsWith ('f' :: ("ind hotels in ".data)) s = true := by
    have e : ("find hotels in ".data) = 'f' :: ("ind hotels in ".data) := by decide
    rwa [e] at h
  obtain ⟨t, rfl⟩ := lsw_cons_head h'
  have e2 : ("hotels in ".data) = 'h' :: ("otels in ".data) := by decide
  rw [e2]
  simp [listStartsWith]

lemma dropWhile_head_not (p : Char → Bool) :
    ∀ (l : List Char) (c : Char), (l.dropWhile p).head? = some c → p c = false := by
  intro l
  induction l with
  | nil => intro c h; simp [List.dropWhile] at h
  | cons a t ih =>
    intro c h
    by_cases hp : p a = true
    · rw [List.dropWhile_cons_of_pos hp] at h
      exact ih c h
    · rw [List.dropWhile_cons_of_neg hp] at h
      simp only [List.head?_cons, Option.some.injEq] at h
      subst h
      exact Bool.not_eq_true _ ▸ (by simpa using hp)

lemma rstrip_getLast_not_ws (u : Str) (c : Char) (h : (rstripL u).getLast? = some c) :
    isWsChar c = false := by
  unfold rstripL at h
  rw [List.getLast?_reverse] at h
  exact dropWhile_head_not isWsChar _ c h

lemma pyStrip_getLast_not_ws (s : Str) (c : Char) (h : (pyStrip s).getLast? = some c) :
    isWsChar c = false :=
  rstrip_getLast_not_ws (lstripL s) c h

lemma lstrip_getLast :
    ∀ (s : Str) (c : Char), s.getLast? = some c → isWsChar c = false →
      (lstripL s).getLast? = some c := by
  intro s
  induction s with
  | nil => intro c h _; simp at h
  | cons a t ih =>
    intro c h hc
    by_cases ha : isWsChar a = true
    · cases t with
      | nil =>
        simp only [List.getLast?_singleton, Option.some.injEq] at h
        subst h
        exact absurd ha (by simp [hc])
      | cons b u =>
        have hlt : (b :: u).getLast? = some c := by
          rwa [List.getLast?_cons_cons] at h
        have : lstripL (a :: b :: u) = lstripL (b :: u) := by
          simp [lstripL, List.dropWhile, ha]
        rw [this]
        exact ih c hlt hc
    · have : lstripL (a :: t) = a :: t := by
        simp [lstripL, List.dropWhile, Bool.not_eq_true _ ▸ ha]
      rw [this]
      exact h

lemma rstrip_ne_nil (u : Str) (c : Char) (h : u.getLast? = some c) (hc : isWsChar c = false) :
    rstripL u ≠ [] := by
  unfold rstripL
  have hh : u.reverse.head? = some c := by rw [List.head?_reverse]; exact h
  obtain ⟨rest, hrev⟩ : ∃ rest, u.reverse = c :: rest := by
    cases hu : u.reverse with
    | nil => rw [hu] at hh; simp at hh
    | cons x xs =>
      rw [hu] at hh
      simp only [List.head?_cons, Option.some.injEq] at hh
      exact ⟨xs, by rw [hh]⟩
  rw [hrev]
  simp [List.dropWhile, hc]

lemma pyStrip_ne_nil (v : Str) (c : Char) (h : v.getLast? = some c) (hc : isWsChar c = false) :
    pyStrip v ≠ [] := by
  unfold pyStrip
  exact rstrip_ne_nil _ c (lstrip_getLast v c h hc) hc

lemma replaceAllFuel_nil (p : Char) (ps : Str) : ∀ f, replaceAllFuel p ps f [] = [] := by
  intro f; cases f <;> rfl

lemma replaceAllFuel_getLast (p : Char) (ps : Str)
    (hp : (p :: ps).getLast? = some ' ') :
    ∀ (f : Nat) (s : Str) (c : Char), s.length ≤ f → s.getLast? = some c →
      isWsChar c = false → (replaceAllFuel p ps f s).getLast? = some c := by
  intro f
  induction f with
  | zero =>
    intro s c _ h _
    simpa [replaceAllFuel] using h
  | succ f ih =>
    intro s c hf h hc
    cases s with
    | nil => simp at h
    | cons a rest =>
      by_cases hsw : listStartsWith (p :: ps) (a :: rest) = true
      · simp only [replaceAllFuel, if_pos hsw]
        have hdecomp := lsw_eq_append (p :: ps) (a :: rest) hsw
        rw [show (p :: ps).length = ps.length + 1 from rfl, List.drop_succ_cons] at hdecomp
        cases hu : rest.drop ps.length with
        | nil =>
          rw [hdecomp, hu, List.append_nil] at h
          rw [hp] at h
          simp only [Option.some.injEq] at h
          subst h
          exact absurd hc (by simp [isWsChar])
        | cons x xs =>
          have hul : (x :: xs).getLast? = some c := by
            rw [hdecomp, hu, List.getLast?_append] at h
            cases hg : (x :: xs).getLast? with
            | none => exact absurd (List.getLast?_eq_none_iff.mp hg) (by simp)
            | some d => rw [hg] at h; simpa [Option.or] using h
          have hlen : (x :: xs).length ≤ f := by
            rw [← hu]
            have h1 : (rest.drop ps.length).length = rest.length - ps.length :=
              List.length_drop ps.length rest
            have h2 : rest.length + 1 ≤ f + 1 := by simpa using hf
            omega
          exact ih (x :: xs) c hlen hul hc
      · simp only [replaceAllFuel, if_neg hsw]
        cases rest with
        | nil =>
          rw [replaceAllFuel_nil]
          exact h
        | cons b t =>
          have hgl : (b :: t).getLast? = some c := by
            rwa [List.getLast?_cons_cons] at h
          have hrec := ih (b :: t) c (by simpa using Nat.le_of_succ_le_succ hf) hgl hc
          have hne : replaceAllFuel p ps f (b :: t) ≠ [] := by
            intro hnil
            rw [hnil] at hrec
            simp at hrec
          rw [getLast?_cons_ne_nil hne]
          exact hrec

lemma extract_ne_nil (p : Char) (ps : Str) (hp : (p :: ps).getLast? = some ' ')
    (uql : Str) (hst : ∃ w, uql = pyStrip w)
    (hsw : listStartsWith (p :: ps) uql = true) :
    pyStrip (pyReplace (p :: ps) uql) ≠ [] := by
  obtain ⟨w, hw⟩ := hst
  obtain ⟨t, ht⟩ := lsw_cons_head hsw
  have hne : uql ≠ [] := by rw [ht]; simp
  obtain ⟨c, hc⟩ : ∃ c, uql.getLast? = some c := by
    cases h : uql.getLast? with
    | none => exact absurd (List.getLast?_eq_none_iff.mp h) hne
    | some c => exact ⟨c, rfl⟩
  have hcw : isWsChar c = false := by
    rw [hw] at hc
    exact pyStrip_getLast_not_ws w c hc
  have h2 : (pyReplace (p :: ps) uql).getLast? = some c := by
    simp only [pyReplace]
    exact replaceAllFuel_getLast p ps hp uql.length uql c le_rfl hc hcw
  exact pyStrip_ne_nil _ c h2 hcw

/-! ### Claim theorems -/

/-- C7: routing is deterministic and free of hidden state: the response of
`handle_query` is a pure function of the agent's collaborators and the
query text, factoring through the pure classification function — identical
input always yields the identical intent and the identical output. -/
theorem claim7_theorem :
    ∀ (a : Agent) (q : Str), handleQuery a q = dispatch a (classify q) := by
  intro a q
  simp only [handleQuery, classify]
  split_ifs <;> simp_all [dispatch]

/-- C1 counterexample: the claim says the extracted location is the
remainder of the normalized text after the leading prefix (which for this
input would be `"paris hotels in nice"`), but `handle_query` removes every
occurrence of `"hotels in "`, yielding `"paris nice"`. -/
theorem claim1_counterexample :
    classify ("hotels in paris hotels in nice".data)
        = Intent.hotelsIn ("paris nice".data)
    ∧ ("paris nice".data) ≠ ("paris hotels in nice".data) := by
  constructor
  · decide
  · decide

/-- C1 (amended): for every input whose normalized form starts with
`"hotels in "` (resp. `"find hotels in "`), routing classifies it as a
hotels-by-location intent whose location is the normalized text with every
occurrence of the prefix removed, trimmed (this equals the remainder after
the leading prefix whenever the prefix occurs only once); in particular
`"hotels in Zurich"` and `"HOTELS IN zurich"` both classify to location
`"zurich"`. -/
theorem claim1_theorem :
    ∀ (q : Str),
      (listStartsWith ("hotels in ".data) (pyStrip (pyLower q)) = true →
        classify q = Intent.hotelsIn
          (pyStrip (pyReplace ("hotels in ".data) (pyStrip (pyLower q)))))
      ∧ (listStartsWith ("find hotels in ".data) (pyStrip (pyLower q)) = true →
        classify q = Intent.findHotelsIn
          (pyStrip (pyReplace ("find hotels in ".data) (pyStrip (pyLower q)))))
      ∧ classify ("hotels in Zurich".data) = Intent.hotelsIn ("zurich".data)
      ∧ classify ("HOTELS IN zurich".data) = Intent.hotelsIn ("zurich".data) := by
  intro q
  refine ⟨?_, ?_, by decide, by decide⟩
  · intro h
    simp only [classify]
    rw [if_neg (hotels_not_list h), if_pos h]
  · intro h
    simp only [classify]
    rw [if_neg (find_not_list h), if_neg (find_not_hotels h), if_pos h]

/-- Witness for C1: the amended theorem applied to `"hotels in Zurich"`. -/
theorem claim1_witness :
    classify ("hotels in Zurich".data) = Intent.hotelsIn ("zurich".data) :=
  ((claim1_theorem ("hotels in Zurich".data)).1 (by decide)).trans (by decide)

/-- C9: whenever classification yields a hotels-by-location intent (via
either prefix branch), the extracted location is non-empty: the normalized
input is trimmed, so a matching input always leaves at least one
non-whitespace character after extraction. -/
theorem claim9_theorem :
    ∀ (q loc : Str),
      (classify q = Intent.hotelsIn loc ∨ classify q = Intent.findHotelsIn loc) →
      loc ≠ [] := by
  intro q loc h
  rcases h with h | h
  · simp only [classify] at h
    split_ifs at h with h1 h2 h3
    have hl := Intent.hotelsIn.inj h
    rw [← hl]
    exact extract_ne_nil _ _ (by decide) _ ⟨pyLower q, rfl⟩ h2
  · simp only [classify] at h
    split_ifs at h with h1 h2 h3
    have hl := Intent.findHotelsIn.inj h
    rw [← hl]
    exact extract_ne_nil _ _ (by decide) _ ⟨pyLower q, rfl⟩ h3

/-- Witness for C9: the theorem applied to `"hotels in Zurich"`. -/
theorem claim9_witness : ("zurich".data) ≠ ([] : Str) :=
  claim9_theorem ("hotels in Zurich".data) ("zurich".data) (Or.inl (by decide))

/-- C2: for a normalized input equal to `"list cities"` or `"show cities"`,
when the store successfully returns a non-empty city list, `handle_query`
returns exactly `"Available cities: "` followed by the cities joined with
`", "` and a trailing period, and the only collaborator invoked is the
store (no Gemini call). -/
theorem claim2_theorem :
    ∀ (a : Agent) (q : Str) (cities : List Str),
      (pyStrip (pyLower q) = ("list cities".data)
        ∨ pyStrip (pyLower q) = ("show cities".data)) →
      a.store.connectOk = true →
      a.store.citiesResult = .ok cities →
      cities ≠ [] →
      handleQuery a q =
        (("Available cities: ".data) ++ List.intercalate (", ".data) cities
          ++ (".".data), 0) := by
  intro a q cities hq hc hr hne
  have hget : (getCitiesFromDb a.store).1 = cities := by
    simp [getCitiesFromDb, hc, hr]
  simp only [handleQuery]
  rw [if_pos hq, hget, if_pos hne]

/-- Witness for C2: the store returning `["Bern","Geneva","Zurich"]` yields
exactly `"Available cities: Bern, Geneva, Zurich."`. -/
theorem claim2_witness :
    handleQuery ⟨storeBGZ, none⟩ ("list cities".data)
      = (("Available cities: Bern, Geneva, Zurich.".data), 0) :=
  (claim2_theorem ⟨storeBGZ, none⟩ ("list cities".data)
    [("Bern".data), ("Geneva".data), ("Zurich".data)]
    (by decide) rfl rfl (by decide)).trans (by decide)

/-- C3: every hotel record formats as
`"- {name} ({price_tier}) - Check-in: {checkin}, Check-out: {checkout} Status: {Booked|Available}"`,
with `Booked` exactly when the booked flag is set; the Lakeview example
formats to the exact string of the specification. -/
theorem claim3_theorem :
    (∀ (h : HotelRecord), h.booked = true →
      formatHotelLine h =
        ("- ".data) ++ h.name ++ (" (".data) ++ h.price_tier
          ++ (") - Check-in: ".data) ++ h.checkin_date
          ++ (", Check-out: ".data) ++ h.checkout_date
          ++ (" Status: Booked".data))
    ∧ (∀ (h : HotelRecord), h.booked = false →
      formatHotelLine h =
        ("- ".data) ++ h.name ++ (" (".data) ++ h.price_tier
          ++ (") - Check-in: ".data) ++ h.checkin_date
          ++ (", Check-out: ".data) ++ h.checkout_date
          ++ (" Status: Available".data))
    ∧ formatHotelLine (rowToRecord lakeviewRow)
        = ("- Lakeview (mid) - Check-in: 2024-05-01, Check-out: 2024-05-03 Status: Booked".data) := by
  refine ⟨?_, ?_, by decide⟩
  · intro h hb
    simp only [formatHotelLine, hb, if_true]
    rw [List.append_assoc]
    congr 1
  · intro h hb
    simp only [formatHotelLine, hb, if_false]
    rw [List.append_assoc]
    congr 1

/-- Witness for C3: the booked-case shape applied to the Lakeview record. -/
theorem claim3_witness :
    formatHotelLine (rowToRecord lakeviewRow)
      = ("- Lakeview (mid) - Check-in: 2024-05-01, Check-out: 2024-05-03 Status: Booked".data) :=
  (claim3_theorem.1 (rowToRecord lakeviewRow) rfl).trans (by decide)

lemma getHotels_fail {s : Store}
    (h : s.connectOk = false ∨ ∀ loc, s.hotelsResult loc = .error ()) (loc : Str) :
    (getHotelsByLocationFromDb s loc).1 = [] := by
  rcases h with h | h
  · simp [getHotelsByLocationFromDb, h]
  · cases hc : s.connectOk <;> simp [getHotelsByLocationFromDb, hc, h loc]

lemma getHotels_empty {s : Store} (hc : s.connectOk = true)
    (h : ∀ loc, s.hotelsResult loc = .ok []) (loc : Str) :
    (getHotelsByLocationFromDb s loc).1 = [] := by
  simp [getHotelsByLocationFromDb, hc, h loc]

/-- C4: a store-level failure during the hotels lookup never escapes
`handle_query` (the embedding is total and the failing store yields a
plain response), and it is indistinguishable from a true empty result:
for any query on the `"hotels in "` branch a failing store and an
empty-returning store produce the identical response, and for
`"hotels in atlantis"` the failing store produces exactly
`"No hotels found in Atlantis in our database, or an error occurred."`. -/
theorem claim4_theorem :
    ∀ (model : Option GeminiGen) (q : Str) (sFail sEmpty : Store),
      (sFail.connectOk = false ∨ ∀ loc, sFail.hotelsResult loc = .error ()) →
      sEmpty.connectOk = true →
      (∀ loc, sEmpty.hotelsResult loc = .ok []) →
      listStartsWith ("hotels in ".data) (pyStrip (pyLower q)) = true →
      handleQuery ⟨sFail, model⟩ q = handleQuery ⟨sEmpty, model⟩ q
      ∧ handleQuery ⟨sFail, model⟩ ("hotels in atlantis".data)
          = (("No hotels found in Atlantis in our database, or an error occurred.".data), 0) := by
  intro model q sFail sEmpty hfail hce hre hsw
  constructor
  · simp only [handleQuery]
    rw [if_neg (hotels_not_list hsw), if_pos hsw,
      if_neg (hotels_not_list hsw), if_pos hsw]
    rw [getHotels_fail hfail, getHotels_empty hce hre]
  · simp only [handleQuery]
    rw [if_neg (hotels_not_list (s := pyStrip (pyLower ("hotels in atlantis".data))) (by decide)),
      if_pos (by decide : listStartsWith ("hotels in ".data) (pyStrip (pyLower ("hotels in atlantis".data))) = true)]
    rw [getHotels_fail hfail]
    simp only [ne_eq, not_true_eq_false, if_false]
    decide

/-- Witness for C4: the concrete failing store versus the concrete empty
store, and the exact `atlantis` message. -/
theorem claim4_witness :
    handleQuery ⟨storeFailC, none⟩ ("hotels in atlantis".data)
      = (("No hotels found in Atlantis in our database, or an error occurred.".data), 0)
    ∧ handleQuery ⟨storeFailC, none⟩ ("hotels in zurich".data)
      = handleQuery ⟨storeEmptyC, none⟩ ("hotels in zurich".data) := by
  have H := claim4_theorem none ("hotels in zurich".data) storeFailC storeEmptyC
    (Or.inl rfl) rfl (fun _ => rfl) (by decide)
  exact ⟨H.2, H.1⟩

/-- C8: whenever a store connection is successfully opened by
`_get_cities_from_db` or `_get_hotels_by_location_from_db`, the call's
event trace is exactly open, one query execution, close — on the success
path and on the path where the query raises alike. -/
theorem claim8_theorem :
    ∀ (store : Store), store.connectOk = true →
      (getCitiesFromDb store).2
          = [DBEvent.openConn, DBEvent.execQuery, DBEvent.closeConn]
      ∧ ∀ (loc : Str), (getHotelsByLocationFromDb store loc).2
          = [DBEvent.openConn, DBEvent.execQuery, DBEvent.closeConn] := by
  intro store h
  constructor
  · cases hr : store.citiesResult <;> simp [getCitiesFromDb, h, hr]
  · intro loc
    cases hr : store.hotelsResult loc <;> simp [getHotelsByLocationFromDb, h, hr]

/-- Witness for C8: the theorem applied to a store whose queries raise. -/
theorem claim8_witness :
    (getCitiesFromDb storeErrC).2
        = [DBEvent.openConn, DBEvent.execQuery, DBEvent.closeConn]
    ∧ (getHotelsByLocationFromDb storeErrC ("zurich".data)).2
        = [DBEvent.openConn, DBEvent.execQuery, DBEvent.closeConn] :=
  ⟨(claim8_theorem storeErrC rfl).1, (claim8_theorem storeErrC rfl).2 ("zurich".data)⟩

lemma handleQuery_fallback (store : Store) (model : Option GeminiGen) (q : Str)
    (h1 : pyStrip (pyLower q) ≠ ("list cities".data))
    (h2 : pyStrip (pyLower q) ≠ ("show cities".data))
    (h3 : listStartsWith ("hotels in ".data) (pyStrip (pyLower q)) = false)
    (h4 : listStartsWith ("find hotels in ".data) (pyStrip (pyLower q)) = false) :
    handleQuery ⟨store, model⟩ q = queryGemini model q := by
  simp only [handleQuery]
  rw [if_neg (not_or.mpr ⟨h1, h2⟩), if_neg (by simp [h3]), if_neg (by simp [h4])]

/-- C5: an input matching none of the classification patterns invokes the
Gemini capability exactly once, on the original (non-normalized) input
text embedded in the fixed travel-topic instruction, and when the call
succeeds with a well-formed response the response text is returned
unmodified. -/
theorem claim5_theorem :
    ∀ (store : Store) (gen : GeminiGen) (q : Str) (resp : GeminiResponse)
      (cand : GeminiCandidate) (cs : List GeminiCandidate)
      (content : GeminiContent) (part : GeminiPart) (ps : List GeminiPart),
      pyStrip (pyLower q) ≠ ("list cities".data) →
      pyStrip (pyLower q) ≠ ("show cities".data) →
      listStartsWith ("hotels in ".data) (pyStrip (pyLower q)) = false →
      listStartsWith ("find hotels in ".data) (pyStrip (pyLower q)) = false →
      gen (fullPrompt q) = .ok (some resp) →
      resp.candidates = cand :: cs →
      cand.content = some content →
      content.parts = part :: ps →
      handleQuery ⟨store, some gen⟩ q = (part.text, 1) := by
  intro store gen q resp cand cs content part ps h1 h2 h3 h4 hg hcand hcont hparts
  rw [handleQuery_fallback store (some gen) q h1 h2 h3 h4]
  simp [queryGemini, hg, hcand, hcont, hparts]

/-- Witness for C5: a concrete unclassified query against a constant
Gemini oracle returns the oracle's text unchanged after exactly one call. -/
theorem claim5_witness :
    handleQuery ⟨storeEmptyC, some genOkC⟩ ("tell me a joke".data)
      = (("Visit Bern.".data), 1) :=
  claim5_theorem storeEmptyC genOkC ("tell me a joke".data)
    ⟨[⟨some ⟨[⟨("Visit Bern.".data)⟩]⟩⟩]⟩ ⟨some ⟨[⟨("Visit Bern.".data)⟩]⟩⟩ []
    ⟨[⟨("Visit Bern.".data)⟩]⟩ ⟨("Visit Bern.".data)⟩ []
    (by decide) (by decide) (by decide) (by decide) rfl rfl rfl rfl

/-- C6: on the fallback path the unconfigured case and the runtime-failure
case are distinguished: with no model, `handle_query` returns the fixed
unavailability message without any Gemini call; if the configured call
raises with message `e`, it returns the error message with `e` appended;
and no failure text can make the two messages coincide.  Both cases return
normally (the embedding is total). -/
theorem claim6_theorem :
    ∀ (store : Store) (q : Str),
      pyStrip (pyLower q) ≠ ("list cities".data) →
      pyStrip (pyLower q) ≠ ("show cities".data) →
      listStartsWith ("hotels in ".data) (pyStrip (pyLower q)) = false →
      listStartsWith ("find hotels in ".data) (pyStrip (pyLower q)) = false →
      handleQuery ⟨store, none⟩ q = (aiUnavailableMsg, 0)
      ∧ (∀ (gen : GeminiGen) (e : Str), gen (fullPrompt q) = .error e →
          handleQuery ⟨store, some gen⟩ q = (aiErrorMsgPre ++ e, 1))
      ∧ (∀ (e : Str), aiUnavailableMsg ≠ aiErrorMsgPre ++ e) := by
  intro store q h1 h2 h3 h4
  refine ⟨?_, ?_, ?_⟩
  · rw [handleQuery_fallback store none q h1 h2 h3 h4]
    rfl
  · intro gen e hg
    rw [handleQuery_fallback store (some gen) q h1 h2 h3 h4]
    simp [queryGemini, hg]
  · intro e h
    rw [show aiUnavailableMsg
          = 'A' :: ("I functionality is not available due to missing or invalid API key.".data)
        from by decide,
      show aiErrorMsgPre = 'E' :: ("rror communicating with AI: ".data) from by decide] at h
    rw [List.cons_append] at h
    injection h with hchar _
    exact absurd hchar (by decide)

/-- Witness for C6: both fallback failure cases at a concrete query. -/
theorem claim6_witness :
    handleQuery ⟨storeEmptyC, none⟩ ("hello there".data) = (aiUnavailableMsg, 0)
    ∧ handleQuery ⟨storeEmptyC, some genErrC⟩ ("hello there".data)
        = (aiErrorMsgPre ++ ("boom".data), 1) := by
  have H := claim6_theorem storeEmptyC ("hello there".data)
    (by decide) (by decide) (by decide) (by decide)
  exact ⟨H.1, H.2.1 genErrC ("boom".data) rfl⟩

/-- C10: if the configured Gemini call returns without raising but the
response is falsy or has no candidates, no content or no parts,
`handle_query` returns the fixed `"Gemini AI did not return a valid
response."` message — an outcome distinct from the unconfigured message
and from every runtime-error message. -/
theorem claim10_theorem :
    ∀ (store : Store) (gen : GeminiGen) (q : Str),
      pyStrip (pyLower q) ≠ ("list cities".data) →
      pyStrip (pyLower q) ≠ ("show cities".data) →
      listStartsWith ("hotels in ".data) (pyStrip (pyLower q)) = false →
      listStartsWith ("find hotels in ".data) (pyStrip (pyLower q)) = false →
      (gen (fullPrompt q) = .ok none
        ∨ (∃ resp : GeminiResponse,
            gen (fullPrompt q) = .ok (some resp) ∧ resp.candidates = [])
        ∨ (∃ (resp : GeminiResponse) (cand : GeminiCandidate) (cs : List GeminiCandidate),
            gen (fullPrompt q) = .ok (some resp) ∧ resp.candidates = cand :: cs
            ∧ cand.content = none)
        ∨ (∃ (resp : GeminiResponse) (cand : GeminiCandidate) (cs : List GeminiCandidate)
            (content : GeminiContent),
            gen (fullPrompt q) = .ok (some resp) ∧ resp.candidates = cand :: cs
            ∧ cand.content = some content ∧ content.parts = [])) →
      handleQuery ⟨store, some gen⟩ q = (aiInvalidMsg, 1)
      ∧ aiInvalidMsg ≠ aiUnavailableMsg
      ∧ (∀ (e : Str), aiInvalidMsg ≠ aiErrorMsgPre ++ e) := by
  intro store gen q h1 h2 h3 h4 hcase
  refine ⟨?_, by decide, ?_⟩
  · rw [handleQuery_fallback store (some gen) q h1 h2 h3 h4]
    rcases hcase with hg | ⟨resp, hg, hc⟩ | ⟨resp, cand, cs, hg, hc, hn⟩
      | ⟨resp, cand, cs, content, hg, hc, hn, hp⟩
    · simp [queryGemini, hg]
    · simp [queryGemini, hg, hc]
    · simp [queryGemini, hg, hc, hn]
    · simp [queryGemini, hg, hc, hn, hp]
  · intro e h
    rw [show aiInvalidMsg
          = 'G' :: ("emini AI did not return a valid response.".data) from by decide,
      show aiErrorMsgPre = 'E' :: ("rror communicating with AI: ".data) from by decide] at h
    rw [List.cons_append] at h
    injection h with hchar _
    exact absurd hchar (by decide)

/-- Witness for C10: a Gemini oracle returning a falsy response yields the
fixed invalid-response message. -/
theorem claim10_witness :
    handleQuery ⟨storeEmptyC, some genNoneC⟩ ("hello there".data) = (aiInvalidMsg, 1) :=
  (claim10_theorem storeEmptyC genNoneC ("hello there".data)
    (by decide) (by decide) (by decide) (by decide) (Or.inl rfl)).1
